import Mathlib

/-!
Verification of the PAID error-capture and prompt-construction pipeline.

This file gives a shallow embedding of `paid/core/debugger.py`,
`paid/core/enhanced_debugger.py`, `paid/utils/prompt_templates.py` and
`paid/utils/__init__.py`, and proves the specified properties about it.

External collaborators are modelled as oracle parameters:
- the Python `exec` facility is a function `String → ExecOutcome`;
- the chat-completion endpoint (request dispatch plus extraction of the
  generated text) is a function `ChatRequest → Except String String`, where
  `Except.error detail` models any raised transport / authentication /
  service failure with `str(e) = detail`, and `Except.ok text` models a
  successful round trip yielding the generated text field;
- the filesystem read in `debug_file` is a function `String → ReadResult`.

Python exceptions are modelled by `PyFault`, which records explicitly
whether the raised object derives from `Exception` (an
`except Exception` clause catches only those, while a context manager's
exit hook observes every `BaseException`).  A Python function that may
let an exception escape to its caller is embedded with an `Except`
result type; a function embedded with a plain result type is total, that
is, it never raises to its caller.
-/

namespace Paid

/-- The `error_info` dictionary built by `AIDebugger.analyze_error`
(`debugger.py` lines 103-108): the four fields of a DiagnosticRecord. -/
structure ErrorInfo where
  code : String
  error_type : String
  error_message : String
  traceback : String
deriving DecidableEq

/-- One chat message as assembled in `analyze_error` (`debugger.py`
lines 124-133). -/
structure ChatMessage where
  role : String
  content : String
deriving DecidableEq

/-- The request sent to `self.client.chat.completions.create`
(`debugger.py` lines 122-134): a model selector plus ordered messages. -/
structure ChatRequest where
  model : String
  messages : List ChatMessage
deriving DecidableEq

/-- A raised Python exception object: its type name, its string form, the
formatted traceback, and whether the type derives from `Exception`
(`SystemExit` and `KeyboardInterrupt`, for example, do not). -/
structure PyFault where
  isExceptionSubclass : Bool
  name : String
  msg : String
  tb : String
deriving DecidableEq

/-- Outcome of executing a source snippet with `exec` (`debugger.py`
line 154): either it completes, or it raises some `PyFault`. -/
inductive ExecOutcome where
  | success : ExecOutcome
  | raised : PyFault → ExecOutcome
deriving DecidableEq

/-- Outcome of `open(filepath).read()` in `debug_file` (`debugger.py`
lines 192-193): the contents, a `FileNotFoundError`, or any other
read failure. -/
inductive ReadResult where
  | ok : String → ReadResult
  | fileNotFound : ReadResult
  | otherError : String → ReadResult
deriving DecidableEq

/-! ### The module-import model

`debugger.py` lines 14-18 set the module flag `TEMPLATES_AVAILABLE` by
attempting `from ..utils.prompt_templates import render_error_prompt,
get_system_prompt` and catching `ImportError`/`ValueError`.  Importing
the submodule first executes the package initializer
`paid/utils/__init__.py`, whose own `from .prompt_templates import ...`
statement succeeds only if every requested name is a top-level binding
of `prompt_templates.py`.  We model a `from ... import` statement by
that membership test.  (If the `jinja2` dependency were missing the
initializer would fail even earlier, with the same observable result.)
-/

/-- The top-level bindings of `paid/utils/prompt_templates.py`: its own
imports (lines 6-8) and its definitions (lines 11, 75, 77, 90, 124). -/
def promptTemplatesModuleDefs : List String :=
  ["os", "Path", "Environment", "FileSystemLoader", "Template",
   "PromptTemplateLoader", "_loader", "get_loader",
   "render_error_prompt", "get_system_prompt"]

/-- The names requested by `paid/utils/__init__.py` lines 6-11. -/
def utilsInitRequestedNames : List String :=
  ["render_error_prompt", "get_system_prompt",
   "ERROR_ANALYSIS_TEMPLATE", "SYSTEM_PROMPT"]

/-- The names requested by `debugger.py` line 15 (and identically by
`enhanced_debugger.py` line 15). -/
def debuggerRequestedNames : List String :=
  ["render_error_prompt", "get_system_prompt"]

/-- A Python `from module import a, b, ...` statement succeeds exactly
when every requested name is bound in the module. -/
def pythonFromImportSucceeds (moduleDefs requested : List String) : Bool :=
  requested.all (fun n => moduleDefs.contains n)

/-- Whether executing `paid/utils/__init__.py` succeeds. -/
def utilsPackageImportSucceeds : Bool :=
  pythonFromImportSucceeds promptTemplatesModuleDefs utilsInitRequestedNames

/-- The module flag set at `debugger.py` lines 14-18: the import succeeds
only if the package initializer runs and the two requested names exist. -/
def TEMPLATES_AVAILABLE : Bool :=
  utilsPackageImportSucceeds &&
    pythonFromImportSucceeds promptTemplatesModuleDefs debuggerRequestedNames

/-- The module flag set at `enhanced_debugger.py` lines 14-18 by the
same import statement. -/
def JINJA2_AVAILABLE : Bool :=
  utilsPackageImportSucceeds &&
    pythonFromImportSucceeds promptTemplatesModuleDefs debuggerRequestedNames

/-! ### The core debugger (`paid/core/debugger.py`) -/

/-- The template-utility environment as seen from `debugger.py`: the
module flag `TEMPLATES_AVAILABLE`, and oracles for the imported
functions `render_error_prompt` (which may raise, for example
`TemplateNotFound`) and `get_system_prompt()` (which may raise, for
example on a missing `system_prompt.txt`). -/
structure TemplateEnv where
  available : Bool
  render_error_prompt : ErrorInfo → Except String String
  get_system_prompt : Except String String

/-- The fixed-format fallback prompt built by the f-string at
`debugger.py` lines 61-82 (the enhanced variant, lines 63-84, builds the
identical text). -/
def fallbackPrompt (error_info : ErrorInfo) : String :=
  "\nYou are an expert Python debugger. Analyze this error:\n\nSOURCE CODE:\n"
    ++ error_info.code
    ++ "\n\nERROR INFORMATION:\nType: " ++ error_info.error_type
    ++ "\nMessage: " ++ error_info.error_message
    ++ "\n\nTRACEBACK:\n" ++ error_info.traceback
    ++ "\n\nProvide a clear explanation covering:\n1. What happened\n2. Where it occurs\n3. Why it occurs\n4. How to fix it\n5. Best practices to avoid this\n\nBe direct and educational.\n"

/-- The hard-coded system instruction at `debugger.py` lines 117 and 119
(also `enhanced_debugger.py` line 116). -/
def defaultSystemPrompt : String :=
  "You are an expert Python debugger and mentor. Explain errors in clear, simple language following the exact format requested."

/-- `AIDebugger.format_error_context` (`debugger.py` lines 39-82): when
templates are available try the template renderer, falling back to the
fixed format on any `Exception`; otherwise use the fixed format.  The
plain `String` result type records that the function never raises. -/
def format_error_context (env : TemplateEnv) (error_info : ErrorInfo) : String :=
  if env.available then
    match env.render_error_prompt error_info with
    | .ok s => s
    | .error _ => fallbackPrompt error_info
  else
    fallbackPrompt error_info

/-- The `try` block of `AIDebugger.analyze_error` (`debugger.py` lines
121-139): perform the service round trip and extract the generated
text; any raised `Exception` is converted into the synthesized error
string at line 139. -/
def guardedCompletionCall (transport : ChatRequest → Except String String)
    (req : ChatRequest) : String :=
  match transport req with
  | .ok content => content
  | .error e => "Error communicating with AI service: " ++ e

/-- `AIDebugger.analyze_error` (`debugger.py` lines 84-139): build the
`error_info` record, render the user prompt, resolve the system prompt
(template-backed with a guarded fallback), then perform the guarded
service round trip. -/
def analyze_error (transport : ChatRequest → Except String String)
    (env : TemplateEnv)
    (code error_type error_message traceback_str model : String) : String :=
  let error_info : ErrorInfo :=
    { code := code, error_type := error_type,
      error_message := error_message, traceback := traceback_str }
  let prompt := format_error_context env error_info
  let system_prompt :=
    if env.available then
      match env.get_system_prompt with
      | .ok s => s
      | .error _ => defaultSystemPrompt
    else defaultSystemPrompt
  guardedCompletionCall transport
    { model := model,
      messages := [{ role := "system", content := system_prompt },
                   { role := "user", content := prompt }] }

/-- `AIDebugger.debug_code` (`debugger.py` lines 141-178): run the
snippet; on completion return `None`; on a raised `Exception` return the
explanation; a raised non-`Exception` `BaseException` is not matched by
the `except Exception` clause and escapes (modelled by `Except.error`). -/
def debug_code (transport : ChatRequest → Except String String)
    (env : TemplateEnv) (execOracle : String → ExecOutcome)
    (code model : String) : Except PyFault (Option String) :=
  match execOracle code with
  | .success => .ok none
  | .raised f =>
      if f.isExceptionSubclass then
        .ok (some (analyze_error transport env code f.name f.msg f.tb model))
      else
        .error f

/-- `AIDebugger.debug_file` (`debugger.py` lines 180-203): read the file
and delegate to `debug_code`; a `FileNotFoundError` or any other read
failure is reported and converted to a `None` return.  The delegation
happens inside the `try` block, so an `Exception` escaping `debug_code`
would also be converted to `None`, while a non-`Exception`
`BaseException` escapes. -/
def debug_file (transport : ChatRequest → Except String String)
    (env : TemplateEnv) (execOracle : String → ExecOutcome)
    (readFs : String → ReadResult)
    (filepath model : String) : Except PyFault (Option String) :=
  match readFs filepath with
  | .ok code =>
      match debug_code transport env execOracle code model with
      | .ok r => .ok r
      | .error f => if f.isExceptionSubclass then .ok none else .error f
  | .fileNotFound => .ok none
  | .otherError _ => .ok none

/-- The placeholder source text used by `AutoDebug.__exit__`
(`debugger.py` line 255). -/
def autoDebugPlaceholderCode : String :=
  "Context not available - use debug_code() or debug_file() for full context"

/-- `AutoDebug.__exit__` (`debugger.py` lines 244-272): with no pending
exception the body is skipped and the implicit `None` (falsy) is
returned; with any pending exception — the hook observes every
`BaseException` type — an explanation is produced and the literal `True`
is returned, which suppresses the exception.  The result pairs the
truthiness of the returned value with the produced explanation. -/
def AutoDebug_exit (transport : ChatRequest → Except String String)
    (env : TemplateEnv) (model : String)
    (excInfo : Option PyFault) : Bool × Option String :=
  match excInfo with
  | none => (false, none)
  | some f =>
      let explanation :=
        analyze_error transport env autoDebugPlaceholderCode f.name f.msg f.tb model
      (true, some explanation)

/-- Python `with` statement semantics for a body that either completes
or raises: on a raising body the manager's exit hook is invoked and the
exception is suppressed exactly when the hook returns a truthy value. -/
def withBlock (exitFn : Option PyFault → Bool × Option String)
    (body : Except PyFault Unit) : Except PyFault Unit :=
  match body with
  | .ok _ => .ok ()
  | .error f => if (exitFn (some f)).1 then .ok () else .error f

/-! ### The enhanced debugger (`paid/core/enhanced_debugger.py`) -/

/-- The `use_templates` field set by `AIDebugger.__init__` in
`enhanced_debugger.py` line 39: the requested value conjoined with the
module flag. -/
def enhanced_use_templates (use_templates : Bool) : Bool :=
  use_templates && JINJA2_AVAILABLE

/-- `AIDebugger.format_error_context` of `enhanced_debugger.py`
(lines 41-84): unlike the core variant there is no `try` around the
template renderer, so a rendering failure escapes to the caller
(modelled by the `Except` result). -/
def enhanced_format_error_context (use_templates : Bool)
    (render : ErrorInfo → Except String String)
    (error_info : ErrorInfo) : Except String String :=
  if use_templates then render error_info
  else .ok (fallbackPrompt error_info)

/-- The `try` block of the enhanced `analyze_error`
(`enhanced_debugger.py` lines 118-136): the guarded service round trip,
whose failure is synthesized into the string at line 136. -/
def enhanced_guardedCompletionCall (transport : ChatRequest → Except String String)
    (req : ChatRequest) : String :=
  match transport req with
  | .ok content => content
  | .error e => "❌ Error communicating with AI service: " ++ e

/-- `AIDebugger.analyze_error` of `enhanced_debugger.py`
(lines 86-136): prompt rendering and the system-prompt lookup happen
outside the `try` block and may escape to the caller (modelled by
threading `Except.error`); only the service round trip is guarded. -/
def enhanced_analyze_error (transport : ChatRequest → Except String String)
    (use_templates : Bool) (render : ErrorInfo → Except String String)
    (sysPromptFn : Except String String)
    (code error_type error_message traceback_str model : String) :
    Except String String :=
  let error_info : ErrorInfo :=
    { code := code, error_type := error_type,
      error_message := error_message, traceback := traceback_str }
  match enhanced_format_error_context use_templates render error_info with
  | .error e => .error e
  | .ok prompt =>
      match (if use_templates then sysPromptFn else .ok defaultSystemPrompt) with
      | .error e => .error e
      | .ok system_prompt =>
          .ok (enhanced_guardedCompletionCall transport
            { model := model,
              messages := [{ role := "system", content := system_prompt },
                           { role := "user", content := prompt }] })

/-! ### The template loader (`paid/utils/prompt_templates.py`) -/

/-- A `PromptTemplateLoader` instance (`prompt_templates.py` lines
11-23); instances are distinguished by an identity tag so that "the same
instance" is expressible. -/
structure PromptTemplateLoader where
  id : Nat
deriving DecidableEq

/-- The module-level state of `prompt_templates.py`: the global variable
`_loader` (line 75, initially `None`), instrumented with a counter of
how many times the `PromptTemplateLoader` constructor has run. -/
structure TemplateModuleState where
  loaderVar : Option PromptTemplateLoader
  constructions : Nat
deriving DecidableEq

/-- The module state right after `prompt_templates.py` is loaded:
`_loader = None`, no constructions yet. -/
def initialTemplateModuleState : TemplateModuleState :=
  { loaderVar := none, constructions := 0 }

/-- `get_loader` (`prompt_templates.py` lines 77-87): construct the
global loader on first use, otherwise return the stored instance.  A
fresh instance receives the current construction count as its identity
tag. -/
def get_loader : TemplateModuleState → PromptTemplateLoader × TemplateModuleState
  | { loaderVar := none, constructions := n } =>
      ({ id := n }, { loaderVar := some { id := n }, constructions := n + 1 })
  | { loaderVar := some l, constructions := n } =>
      (l, { loaderVar := some l, constructions := n })

/-! ### Ordered-occurrence predicate for the fallback-prompt sections -/

/-- `ContainsInOrder s ts` holds when the tokens of `ts` occur verbatim
in `s`, in order and without overlap. -/
def ContainsInOrder : String → List String → Prop
  | _, [] => True
  | s, t :: ts => ∃ a b, s = a ++ (t ++ b) ∧ ContainsInOrder b ts

/-- The section headers and numbered facets required of the fallback
user prompt, in order. -/
def fallbackSectionTokens : List String :=
  ["SOURCE CODE", "ERROR INFORMATION", "TRACEBACK",
   "1. What happened", "2. Where it occurs", "3. Why it occurs",
   "4. How to fix it", "5. Best practices to avoid this"]

/-! ### Concrete instances used by witnesses and counterexamples -/

/-- The template environment as it actually exists inside the package:
the import failed, so the flag is `false` and the two names are unbound
(calling them would raise a `NameError`). -/
def noTemplatesEnv : TemplateEnv :=
  { available := false,
    render_error_prompt := fun _ => .error "NameError: render_error_prompt",
    get_system_prompt := .error "NameError: get_system_prompt" }

/-- The faulting snippet from the module demo (`debugger.py` lines
285-289). -/
def sampleCode : String :=
  "numbers = [1, 2, 3, 4, 5]\nresult = numbers[10]  # Index out of range!\nprint(result)"

/-- The fault that executing `sampleCode` raises: an `IndexError`, which
derives from `Exception`. -/
def sampleIndexFault : PyFault :=
  { isExceptionSubclass := true,
    name := "IndexError",
    msg := "list index out of range",
    tb := "Traceback (most recent call last):\n  IndexError: list index out of range\n" }

/-- An execution oracle under which `sampleCode` raises
`sampleIndexFault` and everything else completes. -/
def indexErrorOracle : String → ExecOutcome := fun c =>
  if c = sampleCode then .raised sampleIndexFault else .success

/-- A snippet that raises `SystemExit`, a `BaseException` that does not
derive from `Exception`. -/
def sampleExitCode : String := "raise SystemExit(0)"

/-- The `SystemExit` fault raised by `sampleExitCode`. -/
def sampleSystemExitFault : PyFault :=
  { isExceptionSubclass := false,
    name := "SystemExit",
    msg := "0",
    tb := "SystemExit: 0\n" }

/-- An execution oracle under which `sampleExitCode` raises
`SystemExit` and everything else completes. -/
def systemExitOracle : String → ExecOutcome := fun c =>
  if c = sampleExitCode then .raised sampleSystemExitFault else .success

/-- An execution oracle under which every snippet completes. -/
def successOracle : String → ExecOutcome := fun _ => .success

/-- A transport whose round trip succeeds but whose generated text field
is empty. -/
def emptyTextTransport : ChatRequest → Except String String := fun _ => .ok ""

/-- A transport whose every round trip fails. -/
def failingTransport : ChatRequest → Except String String :=
  fun _ => .error "Connection error"

/-- A filesystem in which no path exists. -/
def missingFileFs : String → ReadResult := fun _ => .fileNotFound

/-- A sample DiagnosticRecord. -/
def sampleInfo : ErrorInfo :=
  { code := "x = 1/0", error_type := "ZeroDivisionError",
    error_message := "division by zero", traceback := "Traceback...\n" }

/-! ### Helper lemmas -/

/-- With the template flag down, the renderer takes the fallback path. -/
theorem format_fallback_of_unavailable (env : TemplateEnv) (error_info : ErrorInfo)
    (h : env.available = false) :
    format_error_context env error_info = fallbackPrompt error_info := by
  simp [format_error_context, h]

/-- The module flag of `debugger.py` evaluates to `false`: the package
initializer requests names that `prompt_templates.py` never binds. -/
theorem templates_available_eq_false : TEMPLATES_AVAILABLE = false := by decide

/-- The module flag of `enhanced_debugger.py` evaluates to `false` for
the same reason. -/
theorem jinja2_available_eq_false : JINJA2_AVAILABLE = false := by decide

/-- The synthesized service-failure string is never empty. -/
theorem err_string_ne_empty (e : String) :
    ("Error communicating with AI service: " ++ e) ≠ "" := by
  intro h
  have hl := congrArg String.length h
  rw [String.length_append] at hl
  have h1 : ("Error communicating with AI service: " : String).length = 37 := rfl
  have h2 : ("" : String).length = 0 := rfl
  rw [h1, h2] at hl
  omega

/-- The guarded round trip yields a non-empty string provided every
successful service response text is non-empty. -/
theorem guardedCompletionCall_ne_empty (transport : ChatRequest → Except String String)
    (req : ChatRequest)
    (hne : ∀ text, transport req = Except.ok text → text ≠ "") :
    guardedCompletionCall transport req ≠ "" := by
  unfold guardedCompletionCall
  cases htr : transport req with
  | ok content => exact hne content htr
  | error e => exact err_string_ne_empty e

theorem containsInOrder_nil (s : String) : ContainsInOrder s [] := trivial

theorem containsInOrder_cons_here (t b : String) (ts : List String)
    (h : ContainsInOrder b ts) : ContainsInOrder (t ++ b) (t :: ts) :=
  ⟨"", b, rfl, h⟩

theorem containsInOrder_skip (a b : String) (ts : List String)
    (h : ContainsInOrder b ts) : ContainsInOrder (a ++ b) ts := by
  cases ts with
  | nil => trivial
  | cons t ts =>
      obtain ⟨x, y, hxy, hrest⟩ := h
      exact ⟨a ++ x, y, by rw [hxy, String.append_assoc], hrest⟩

/-- The fallback prompt, re-associated so that each required section
token is an isolated leaf of the concatenation. -/
theorem fallbackPrompt_eq_exploded (i : ErrorInfo) :
    fallbackPrompt i =
      "\nYou are an expert Python debugger. Analyze this error:\n\n" ++
      ("SOURCE CODE" ++ (":\n" ++ (i.code ++ ("\n\n" ++ ("ERROR INFORMATION" ++
      (":\nType: " ++ (i.error_type ++ ("\nMessage: " ++ (i.error_message ++
      ("\n\n" ++ ("TRACEBACK" ++ (":\n" ++ (i.traceback ++
      ("\n\nProvide a clear explanation covering:\n" ++ ("1. What happened" ++
      ("\n" ++ ("2. Where it occurs" ++ ("\n" ++ ("3. Why it occurs" ++
      ("\n" ++ ("4. How to fix it" ++ ("\n" ++ ("5. Best practices to avoid this" ++
      "\n\nBe direct and educational.\n"))))))))))))))))))))))) := by
  simp only [fallbackPrompt]
  rw [show ("\nYou are an expert Python debugger. Analyze this error:\n\nSOURCE CODE:\n" : String)
      = "\nYou are an expert Python debugger. Analyze this error:\n\n" ++ ("SOURCE CODE" ++ ":\n") from rfl]
  rw [show ("\n\nERROR INFORMATION:\nType: " : String)
      = "\n\n" ++ ("ERROR INFORMATION" ++ ":\nType: ") from rfl]
  rw [show ("\n\nTRACEBACK:\n" : String) = "\n\n" ++ ("TRACEBACK" ++ ":\n") from rfl]
  rw [show ("\n\nProvide a clear explanation covering:\n1. What happened\n2. Where it occurs\n3. Why it occurs\n4. How to fix it\n5. Best practices to avoid this\n\nBe direct and educational.\n" : String)
      = "\n\nProvide a clear explanation covering:\n" ++ ("1. What happened" ++
        ("\n" ++ ("2. Where it occurs" ++ ("\n" ++ ("3. Why it occurs" ++
        ("\n" ++ ("4. How to fix it" ++ ("\n" ++ ("5. Best practices to avoid this" ++
        "\n\nBe direct and educational.\n"))))))))) from rfl]
  simp only [String.append_assoc]

/-- The fallback prompt contains every required section token, in
order, whatever the DiagnosticRecord holds. -/
theorem fallbackPrompt_sections_helper (i : ErrorInfo) :
    ContainsInOrder (fallbackPrompt i) fallbackSectionTokens := by
  rw [fallbackPrompt_eq_exploded]
  simp only [fallbackSectionTokens]
  repeat
    first
    | exact containsInOrder_nil _
    | apply containsInOrder_cons_here
    | apply containsInOrder_skip

/-! ### Claim theorems -/

/-- Claim C1 (counterexample): the claim "for every code snippet whose
execution raises a fault, `debug_code` returns a non-empty string" is
false as stated.  At the concrete faulting snippet `sampleCode` (which
raises an `IndexError`), with a service whose round trip succeeds but
whose generated text field is empty, `debug_code` returns the empty
string. -/
theorem debug_code_nonempty_claim_counterexample :
    indexErrorOracle sampleCode = ExecOutcome.raised sampleIndexFault
    ∧ sampleIndexFault.isExceptionSubclass = true
    ∧ debug_code emptyTextTransport noTemplatesEnv indexErrorOracle sampleCode "default"
        = Except.ok (some "")
    ∧ ("" : String).length = 0 := by
  refine ⟨?_, rfl, ?_, rfl⟩
  · simp [indexErrorOracle]
  · simp [debug_code, indexErrorOracle, sampleIndexFault, analyze_error,
      guardedCompletionCall, emptyTextTransport]

/-- Claim C1 (amended): for every code snippet whose execution raises an
`Exception`-derived fault, `debug_code` returns a string (never
nothing); that string is non-empty provided every successful service
response text is non-empty — and the synthesized service-failure string
is always non-empty. -/
theorem debug_code_faulting_returns_explanation
    (transport : ChatRequest → Except String String) (env : TemplateEnv)
    (execOracle : String → ExecOutcome) (code model : String) (f : PyFault)
    (hraise : execOracle code = ExecOutcome.raised f)
    (hexc : f.isExceptionSubclass = true)
    (hne : ∀ req text, transport req = Except.ok text → text ≠ "") :
    ∃ s : String,
      debug_code transport env execOracle code model = Except.ok (some s)
      ∧ s ≠ "" := by
  refine ⟨analyze_error transport env code f.name f.msg f.tb model, ?_, ?_⟩
  · simp [debug_code, hraise, hexc]
  · simp only [analyze_error]
    exact guardedCompletionCall_ne_empty transport _ (fun text h => hne _ text h)

/-- Claim C1 (witness for the amended theorem): at the `IndexError`
snippet with a failing transport, `debug_code` returns a non-empty
string. -/
theorem debug_code_faulting_returns_explanation_witness :
    ∃ s : String,
      debug_code failingTransport noTemplatesEnv indexErrorOracle sampleCode "default"
        = Except.ok (some s)
      ∧ s ≠ "" :=
  debug_code_faulting_returns_explanation failingTransport noTemplatesEnv
    indexErrorOracle sampleCode "default" sampleIndexFault
    (by simp [indexErrorOracle]) rfl
    (by intro req text h; simp [failingTransport] at h)

/-- Claim C2: every fault raised inside the Automatic-Capture Adapter
scope is unconditionally suppressed after an explanation is produced:
`AutoDebug.__exit__` returns a truthy value whenever an exception is
present, it produces the explanation of that exception, and under
`with`-statement semantics the fault does not propagate past the
scope. -/
theorem autodebug_suppresses_every_fault
    (transport : ChatRequest → Except String String) (env : TemplateEnv)
    (model : String) (f : PyFault) :
    (AutoDebug_exit transport env model (some f)).1 = true
    ∧ (AutoDebug_exit transport env model (some f)).2
        = some (analyze_error transport env autoDebugPlaceholderCode f.name f.msg f.tb model)
    ∧ withBlock (AutoDebug_exit transport env model) (Except.error f) = Except.ok () := by
  refine ⟨rfl, rfl, ?_⟩
  simp [withBlock, AutoDebug_exit]

/-- Claim C3: under a failing explanation-service transport,
`analyze_error` does not raise to its caller: the core variant returns
exactly the synthesized string `"Error communicating with AI service: "`
followed by the failure detail, and the enhanced variant (with its
`use_templates` field as the package constructs it) returns the same
string behind its marker glyph. -/
theorem analyze_error_service_failure_contained
    (transport : ChatRequest → Except String String) (env : TemplateEnv)
    (use_templates : Bool) (render : ErrorInfo → Except String String)
    (sysPromptFn : Except String String)
    (code error_type error_message traceback_str model detail : String)
    (hfail : ∀ req, transport req = Except.error detail) :
    analyze_error transport env code error_type error_message traceback_str model
      = "Error communicating with AI service: " ++ detail
    ∧ enhanced_analyze_error transport (enhanced_use_templates use_templates) render
        sysPromptFn code error_type error_message traceback_str model
      = Except.ok ("❌ Error communicating with AI service: " ++ detail) := by
  constructor
  · simp [analyze_error, guardedCompletionCall, hfail]
  · simp [enhanced_analyze_error, enhanced_format_error_context,
      enhanced_guardedCompletionCall, enhanced_use_templates,
      jinja2_available_eq_false, hfail]

/-- Claim C3 (witness): with the concrete always-failing transport, both
variants return the synthesized string. -/
theorem analyze_error_service_failure_contained_witness :
    analyze_error failingTransport noTemplatesEnv "x = 1/0" "ZeroDivisionError"
        "division by zero" "Traceback...\n" "default"
      = "Error communicating with AI service: " ++ "Connection error"
    ∧ enhanced_analyze_error failingTransport (enhanced_use_templates true)
        (fun _ => Except.error "boom") (Except.error "boom")
        "x = 1/0" "ZeroDivisionError" "division by zero" "Traceback...\n" "default"
      = Except.ok ("❌ Error communicating with AI service: " ++ "Connection error") :=
  analyze_error_service_failure_contained failingTransport noTemplatesEnv true
    (fun _ => Except.error "boom") (Except.error "boom")
    "x = 1/0" "ZeroDivisionError" "division by zero" "Traceback...\n" "default"
    "Connection error" (fun _ => rfl)

/-- Claim C4: the Prompt Renderer never raises to its caller: whenever
the templating backend is unavailable or template rendering itself
raises, the core `format_error_context` returns the fixed-format
fallback prompt, and the enhanced variant — whose `use_templates` field
is the requested value conjoined with the always-false module flag —
returns the fallback prompt without raising for every record. -/
theorem format_error_context_never_raises (env : TemplateEnv) (error_info : ErrorInfo)
    (h : env.available = false ∨ ∃ e, env.render_error_prompt error_info = Except.error e) :
    format_error_context env error_info = fallbackPrompt error_info
    ∧ ∀ (use_templates : Bool) (render : ErrorInfo → Except String String),
        enhanced_format_error_context (enhanced_use_templates use_templates) render error_info
          = Except.ok (fallbackPrompt error_info) := by
  constructor
  · rcases h with h | ⟨e, he⟩
    · exact format_fallback_of_unavailable env error_info h
    · cases hav : env.available <;> simp [format_error_context, hav, he]
  · intro u render
    simp [enhanced_format_error_context, enhanced_use_templates,
      jinja2_available_eq_false]

/-- Claim C4 (witness): at the package environment and a concrete
record, both renderers return the fallback prompt. -/
theorem format_error_context_never_raises_witness :
    format_error_context noTemplatesEnv sampleInfo = fallbackPrompt sampleInfo
    ∧ enhanced_format_error_context (enhanced_use_templates true)
        (fun _ => Except.error "boom") sampleInfo
      = Except.ok (fallbackPrompt sampleInfo) :=
  ⟨(format_error_context_never_raises noTemplatesEnv sampleInfo (Or.inl rfl)).1,
   (format_error_context_never_raises noTemplatesEnv sampleInfo (Or.inl rfl)).2
     true (fun _ => Except.error "boom")⟩

/-- Claim C5: for every code snippet whose execution completes without
raising, `debug_code` returns nothing. -/
theorem debug_code_success_returns_none
    (transport : ChatRequest → Except String String) (env : TemplateEnv)
    (execOracle : String → ExecOutcome) (code model : String)
    (hsucc : execOracle code = ExecOutcome.success) :
    debug_code transport env execOracle code model = Except.ok none := by
  simp [debug_code, hsucc]

/-- Claim C5 (witness): a snippet that completes yields `none`. -/
theorem debug_code_success_returns_none_witness :
    debug_code failingTransport noTemplatesEnv successOracle "print(1+1)" "default"
      = Except.ok none :=
  debug_code_success_returns_none failingTransport noTemplatesEnv successOracle
    "print(1+1)" "default" rfl

/-- Claim C6: `debug_file` converts read failures instead of raising: a
missing file yields a `none` return, any other read failure yields a
`none` return, and a successful read delegates to `debug_code`,
returning whatever it returns. -/
theorem debug_file_read_failures_contained
    (transport : ChatRequest → Except String String) (env : TemplateEnv)
    (execOracle : String → ExecOutcome) (readFs : String → ReadResult)
    (filepath model : String) :
    (readFs filepath = ReadResult.fileNotFound →
        debug_file transport env execOracle readFs filepath model = Except.ok none)
    ∧ (∀ m, readFs filepath = ReadResult.otherError m →
        debug_file transport env execOracle readFs filepath model = Except.ok none)
    ∧ (∀ code r, readFs filepath = ReadResult.ok code →
        debug_code transport env execOracle code model = Except.ok r →
        debug_file transport env execOracle readFs filepath model = Except.ok r) := by
  refine ⟨?_, ?_, ?_⟩
  · intro h
    simp [debug_file, h]
  · intro m h
    simp [debug_file, h]
  · intro code r h hc
    simp [debug_file, h, hc]

/-- Claim C6 (witness): a nonexistent path yields a `none` return. -/
theorem debug_file_read_failures_contained_witness :
    debug_file failingTransport noTemplatesEnv successOracle missingFileFs
      "/nonexistent/path.src" "default" = Except.ok none :=
  (debug_file_read_failures_contained failingTransport noTemplatesEnv successOracle
    missingFileFs "/nonexistent/path.src" "default").1 rfl

/-- Claim C7: when the templating backend is unavailable, the rendered
user prompt contains, verbatim and in order, the section headers
"SOURCE CODE", "ERROR INFORMATION", "TRACEBACK" and the five-item
numbered list of explanation facets, independent of the record's
contents. -/
theorem fallback_prompt_contains_sections (env : TemplateEnv) (error_info : ErrorInfo)
    (h : env.available = false) :
    ContainsInOrder (format_error_context env error_info) fallbackSectionTokens := by
  rw [format_fallback_of_unavailable env error_info h]
  exact fallbackPrompt_sections_helper error_info

/-- Claim C7 (witness): the sections occur in order at a concrete
record. -/
theorem fallback_prompt_contains_sections_witness :
    ContainsInOrder (format_error_context noTemplatesEnv sampleInfo) fallbackSectionTokens :=
  fallback_prompt_contains_sections noTemplatesEnv sampleInfo rfl

/-- Claim C8: the module-level import of the template utilities always
fails — `paid/utils/__init__.py` requests `ERROR_ANALYSIS_TEMPLATE`,
which `prompt_templates.py` never binds — so `TEMPLATES_AVAILABLE` is
`false` and `format_error_context` always produces the fixed-format
fallback prompt; the template-backed path is unreachable through the
package. -/
theorem templates_never_available :
    TEMPLATES_AVAILABLE = false
    ∧ ("ERROR_ANALYSIS_TEMPLATE" ∈ utilsInitRequestedNames
        ∧ "ERROR_ANALYSIS_TEMPLATE" ∉ promptTemplatesModuleDefs)
    ∧ ∀ (env : TemplateEnv) (error_info : ErrorInfo),
        env.available = TEMPLATES_AVAILABLE →
        format_error_context env error_info = fallbackPrompt error_info := by
  refine ⟨templates_available_eq_false, ⟨by decide, by decide⟩, ?_⟩
  intro env error_info h
  exact format_fallback_of_unavailable env error_info
    (h.trans templates_available_eq_false)

/-- Claim C8 (witness): the package environment renders the fallback
prompt at a concrete record. -/
theorem templates_never_available_witness :
    format_error_context noTemplatesEnv sampleInfo = fallbackPrompt sampleInfo :=
  templates_never_available.2.2 noTemplatesEnv sampleInfo rfl

/-- Claim C9: `get_loader` is memoized process-wide: after any call,
the global holds the returned instance, every subsequent call returns
that same instance with the state unchanged (in particular constructing
nothing new), and the first call from the freshly loaded module state
performs exactly one construction. -/
theorem get_loader_memoized :
    (∀ s : TemplateModuleState,
        ((get_loader s).2).loaderVar = some (get_loader s).1)
    ∧ (∀ s : TemplateModuleState,
        get_loader (get_loader s).2 = ((get_loader s).1, (get_loader s).2))
    ∧ (get_loader initialTemplateModuleState).2.constructions
        = initialTemplateModuleState.constructions + 1
    ∧ (∀ s : TemplateModuleState,
        (get_loader (get_loader s).2).2.constructions = (get_loader s).2.constructions) := by
  refine ⟨?_, ?_, rfl, ?_⟩ <;>
    (intro s; obtain ⟨lv, n⟩ := s; cases lv <;> rfl)

/-- Claim C10: `debug_code` captures only faults derived from
`Exception`: a raised `BaseException` that is not an `Exception`
subclass propagates out uncaptured, with no explanation produced,
whereas `AutoDebug.__exit__` suppresses every exception type including
these. -/
theorem base_exception_escapes_debug_code
    (transport : ChatRequest → Except String String) (env : TemplateEnv)
    (execOracle : String → ExecOutcome) (code model : String) (f : PyFault)
    (hraise : execOracle code = ExecOutcome.raised f)
    (hbase : f.isExceptionSubclass = false) :
    debug_code transport env execOracle code model = Except.error f
    ∧ (AutoDebug_exit transport env model (some f)).1 = true := by
  constructor
  · simp [debug_code, hraise, hbase]
  · rfl

/-- Claim C10 (witness): a snippet raising `SystemExit` escapes
`debug_code`, yet the adapter hook still suppresses it. -/
theorem base_exception_escapes_debug_code_witness :
    debug_code failingTransport noTemplatesEnv systemExitOracle sampleExitCode "default"
      = Except.error sampleSystemExitFault
    ∧ (AutoDebug_exit failingTransport noTemplatesEnv "default"
        (some sampleSystemExitFault)).1 = true :=
  base_exception_escapes_debug_code failingTransport noTemplatesEnv systemExitOracle
    sampleExitCode "default" sampleSystemExitFault (by simp [systemExitOracle]) rfl

end Paid
